import Mathlib

/-!
Shallow embedding of the Pokemon TCG trading backend (src/main.py).

We model the card data model, the in-memory cache helper
`get_cached_or_fetch`, and the enrichment functions
(`extract_market_price`, `calculate_pull_rate`, `calculate_trend`,
`extract_all_prices`, `calculate_investment`) together with the
`/api/card/{id}` and `/api/trending` route handlers.

Conventions of the embedding:
* Monetary values and rates are rationals (`ℚ`); `round2` models
  Python's `round(x, 2)` (no half-way case arises in any property
  proved here).
* A JSON object field that may be absent or null is
  `Option (Option ℚ)`: outer `none` = key absent, `some none` = key
  present with a null value, `some (some v)` = numeric value `v`.
* `tcgplayer.prices` is an association list keyed by variant name,
  in insertion order, matching Python dict iteration order.
* Timestamps are natural numbers of seconds; `timedelta_seconds`
  models the `.seconds` attribute of a non-negative Python
  `timedelta`, which is the seconds component within the day,
  i.e. the total elapsed seconds modulo 86400.
-/

/-- One entry of `tcgplayer.prices` for a single print variant. -/
structure PriceEntry where
  low : Option (Option ℚ) := none
  mid : Option (Option ℚ) := none
  high : Option (Option ℚ) := none
  market : Option (Option ℚ) := none
  directLow : Option (Option ℚ) := none
  deriving DecidableEq

/-- A card record as consumed from the upstream catalog API.
`rarity` and `tcgplayer` are optional; the other fields are required
by the upstream interface (the handlers index them directly). -/
structure Card where
  id : String := ""
  name : String := ""
  image : String := ""
  setName : String := ""
  rarity : Option String := none
  tcgplayer : Option (List (String × PriceEntry)) := none
  deriving DecidableEq

/-- Python `x or 0` on an optional numeric value: `None` becomes `0`,
a number is returned unchanged (`0.0 or 0` is numerically `0`). -/
def orZero : Option ℚ → ℚ
  | none => 0
  | some v => v

/-- Look up a variant name in the `prices` dict. -/
def lookupVariant (ps : List (String × PriceEntry)) (v : String) : Option PriceEntry :=
  match ps.find? (fun p => p.1 == v) with
  | none => none
  | some p => some p.2

/-- The `market` field of variant `v`: `none` when the variant is absent
or has no `market` key, otherwise the (possibly null) stored value.
This is the guard `variant in prices and 'market' in prices[variant]`. -/
def variantMarket (ps : List (String × PriceEntry)) (v : String) : Option (Option ℚ) :=
  match lookupVariant ps v with
  | none => none
  | some e => e.market

/-- The preference loop of `extract_market_price`: return at the first
variant in the given order that has a `market` key. -/
def scanMarket (ps : List (String × PriceEntry)) : List String → Option (Option ℚ)
  | [] => none
  | v :: rest =>
    match variantMarket ps v with
    | some m => some m
    | none => scanMarket ps rest

/-- The fixed preference order of `extract_market_price`. -/
def marketOrder : List String := ["normal", "holofoil", "unlimited", "1stEdition"]

/-- The fallback loop of `extract_market_price`: the `mid` field of the
first variant (in dict order) that has a `mid` key. -/
def firstMid : List (String × PriceEntry) → Option (Option ℚ)
  | [] => none
  | (_, e) :: rest =>
    match e.mid with
    | some m => some m
    | none => firstMid rest

/-- `extract_market_price` from src/main.py: scan `normal`, `holofoil`,
`unlimited`, `1stEdition` and return at the first variant having a
`market` key (`market or 0`); otherwise return the first available
`mid or 0`; otherwise 0. An absent `tcgplayer` yields the empty
prices dict and hence 0. -/
def extract_market_price (card : Card) : ℚ :=
  match card.tcgplayer with
  | none => 0
  | some ps =>
    match scanMarket ps marketOrder with
    | some m => orZero m
    | none =>
      match firstMid ps with
      | some m => orZero m
      | none => 0

/-- Result record of `calculate_pull_rate`. -/
structure PullRate where
  percentage : ℚ
  one_in_packs : ℕ
  rarity : String
  deriving DecidableEq

/-- The static pull-rate table of `calculate_pull_rate`:
rarity ↦ (estimated pull percentage, average packs per copy).
Python decimal literals are written as the equal rational fractions
(65.0 = 65, 3.33 = 333/100, 1.66 = 166/100, 0.83 = 83/100,
0.25 = 25/100). -/
def pull_rates : List (String × ℚ × ℕ) :=
  [("Common", (65, 1)),
   ("Uncommon", (30, 1)),
   ("Rare", (10, 1)),
   ("Rare Holo", (333 / 100, 3)),
   ("Rare Holo EX", (166 / 100, 6)),
   ("Rare Holo GX", (166 / 100, 6)),
   ("Rare Holo V", (166 / 100, 6)),
   ("Rare Holo VMAX", (83 / 100, 12)),
   ("Rare Ultra", (83 / 100, 12)),
   ("Rare Secret", (25 / 100, 40)),
   ("Rare Rainbow", (25 / 100, 40)),
   ("Hyper Rare", (25 / 100, 40)),
   ("Special Illustration Rare", (25 / 100, 40))]

/-- `calculate_pull_rate` from src/main.py: `card.get('rarity', 'Common')`
looked up in the static table, with default `(5.0, 2)` for unknown
rarity strings. -/
def calculate_pull_rate (card : Card) : PullRate :=
  let rarity := card.rarity.getD "Common"
  match pull_rates.find? (fun p => p.1 == rarity) with
  | some p => ⟨p.2.1, p.2.2, rarity⟩
  | none => ⟨5, 2, rarity⟩

/-- Python `round(x, 2)` (round to two decimal places; for the inputs
arising in the proved properties the value is never exactly half-way
between two representable results, so tie-breaking is immaterial). -/
def round2 (x : ℚ) : ℚ :=
  ((Int.floor (x * 100 + 1 / 2) : ℤ) : ℚ) / 100

/-- Result record of `calculate_investment`. -/
structure Investment where
  market_price : ℚ
  average_opening_cost : ℚ
  packs_needed_average : ℕ
  roi_percentage : ℚ
  recommendation : String
  deriving DecidableEq

/-- The fixed pack price used by `calculate_investment`
(`pack_cost = 4.50`, written as the equal fraction `9/2`). -/
def pack_cost : ℚ := 9 / 2

/-- `calculate_investment` from src/main.py: opening cost is
`one_in_packs * 4.50`; ROI is rounded to two decimals, guarded
against a zero opening cost; recommendation is `BUY_SINGLE` exactly
when the market price is strictly below the opening cost. -/
def calculate_investment (card : Card) : Investment :=
  let market_price := extract_market_price card
  let pull_rate := calculate_pull_rate card
  let packs_needed := pull_rate.one_in_packs
  let opening_cost : ℚ := packs_needed * pack_cost
  { market_price := market_price
    average_opening_cost := round2 opening_cost
    packs_needed_average := packs_needed
    roi_percentage :=
      if 0 < opening_cost then round2 ((market_price - opening_cost) / opening_cost * 100)
      else 0
    recommendation := if market_price < opening_cost then "BUY_SINGLE" else "OPEN_PACKS" }

/-- `calculate_set_rating` from src/main.py: qualitative star rating by
average per-card value. -/
def calculate_set_rating (total_value : ℚ) (total_cards : ℕ) : String :=
  let avg_value : ℚ := if 0 < total_cards then total_value / total_cards else 0
  if 10 < avg_value then "Exceptional"
  else if 5 < avg_value then "Very Good"
  else if 2 < avg_value then "Good"
  else if 1 < avg_value then "Regular"
  else "Basic"

/-- Result record of `calculate_trend`. -/
structure Trend where
  direction : String
  change_percent : ℚ
  change_value : ℚ
  deriving DecidableEq

/-- `calculate_trend` from src/main.py, with the two random draws
(`random.choice` direction and `random.uniform` percentage) made
explicit inputs: the function is a placeholder returning simulated
data. -/
def calculate_trend (card : Card) (direction : String) (change_percent : ℚ) : Trend :=
  { direction := direction
    change_percent := round2 change_percent
    change_value := round2 (extract_market_price card * (change_percent / 100)) }

/-- One variant entry of `extract_all_prices`: `price_data.get(k, 0)`
yields `0` for an absent key but keeps a present null. -/
structure AllPrice where
  low : Option ℚ
  mid : Option ℚ
  high : Option ℚ
  market : Option ℚ
  directLow : Option ℚ
  deriving DecidableEq

/-- Python `d.get(k, 0)` over our optional-field encoding: an absent
key becomes `0`, a present key keeps its (possibly null) value. -/
def getOrZero : Option (Option ℚ) → Option ℚ
  | none => some 0
  | some v => v

/-- `extract_all_prices` from src/main.py. -/
def extract_all_prices (card : Card) : List (String × AllPrice) :=
  match card.tcgplayer with
  | none => []
  | some ps =>
    ps.map (fun p =>
      (p.1, { low := getOrZero p.2.low
              mid := getOrZero p.2.mid
              high := getOrZero p.2.high
              market := getOrZero p.2.market
              directLow := getOrZero p.2.directLow }))

/-- `get_related_cards_ids` from src/main.py: always the empty list. -/
def get_related_cards_ids (_card : Card) : List String := []

/-! ## The in-memory cache -/

/-- `CACHE_DURATION = 3600` (one hour). -/
def CACHE_DURATION : ℕ := 3600

/-- The `.seconds` attribute of the Python timedelta `now - ts` for
`ts ≤ now`: Python normalizes a timedelta into days plus a seconds
component in `[0, 86400)`, so `.seconds` is the elapsed time modulo
86400 — not the total elapsed seconds. -/
def timedelta_seconds (ts now : ℕ) : ℕ := (now - ts) % 86400

/-- The cache dict: key ↦ (cached value, store timestamp). -/
def CacheMap (α : Type) : Type := List (String × α × ℕ)

/-- Dict lookup `cache[key]` (with `key in cache` as `isSome`). -/
def cacheLookup {α : Type} : CacheMap α → String → Option (α × ℕ)
  | [], _ => none
  | e :: rest, k => if e.1 == k then some e.2 else cacheLookup rest k

/-- Dict assignment `cache[key] = (data, now)`: replace an existing
binding in place, else append. -/
def cacheInsert {α : Type} : CacheMap α → String → α → ℕ → CacheMap α
  | [], k, v, t => [(k, v, t)]
  | e :: rest, k, v, t =>
    if e.1 == k then (k, v, t) :: rest else e :: cacheInsert rest k v t

/-- Outcome of one `get_cached_or_fetch` call: the returned value, the
cache afterwards, and whether the producer was invoked. -/
structure FetchResult (α : Type) where
  value : α
  cache : CacheMap α
  invoked : Bool

/-- `get_cached_or_fetch` from src/main.py: if the key is cached and
`(datetime.now() - timestamp).seconds < CACHE_DURATION`, return the
cached value without invoking `fetch_function`; otherwise invoke it,
store the result with the current timestamp, and return it. -/
def get_cached_or_fetch {α : Type} (cache : CacheMap α) (cache_key : String)
    (fetch_function : Unit → α) (now : ℕ) : FetchResult α :=
  match cacheLookup cache cache_key with
  | some cached =>
    if timedelta_seconds cached.2 now < CACHE_DURATION then
      { value := cached.1, cache := cache, invoked := false }
    else
      let data := fetch_function ()
      { value := data, cache := cacheInsert cache cache_key data now, invoked := true }
  | none =>
    let data := fetch_function ()
    { value := data, cache := cacheInsert cache cache_key data now, invoked := true }

/-! ## Route handlers -/

/-- An upstream response for a single-card query: HTTP status plus, for
a 200, the `data` member of the JSON body. -/
structure CardResponse where
  status : ℕ
  data : Card

/-- The inner `fetch_card` closure of `get_card_detail`: the card on a
200 response, `None` otherwise. -/
def fetch_card (resp : CardResponse) : Option Card :=
  if resp.status == 200 then some resp.data else none

/-- A raised `HTTPException`: status code and detail message. -/
structure HTTPError where
  status : ℕ
  detail : String
  deriving DecidableEq

/-- Starlette renders `str(HTTPException(s, d))` as `"s: d"`. -/
def httpExceptionStr (e : HTTPError) : String :=
  toString e.status ++ ": " ++ e.detail

/-- The enriched card-detail payload built by `get_card_detail`. -/
structure EnrichedCard where
  card : Card
  market_price : ℚ
  all_prices : List (String × AllPrice)
  pull_rate : PullRate
  price_trend : Trend
  investment_analysis : Investment
  related_cards : List String
  deriving DecidableEq

/-- `get_card_detail` from src/main.py. The whole body runs inside
`try: ... except Exception as e: raise HTTPException(500, str(e))`;
the 404 raised for a missing card is itself an `Exception`, so it is
caught by that handler and re-raised with status 500. `trendDir` and
`trendPct` are the random draws of `calculate_trend`. -/
def get_card_detail (cache : CacheMap (Option Card)) (card_id : String)
    (resp : CardResponse) (now : ℕ) (trendDir : String) (trendPct : ℚ) :
    Except HTTPError (EnrichedCard × CacheMap (Option Card)) :=
  let cache_key := "card_" ++ card_id
  let r := get_cached_or_fetch cache cache_key (fun _ => fetch_card resp) now
  let inner : Except HTTPError EnrichedCard :=
    match r.value with
    | none => Except.error { status := 404, detail := "Card not found" }
    | some card =>
      Except.ok
        { card := card
          market_price := extract_market_price card
          all_prices := extract_all_prices card
          pull_rate := calculate_pull_rate card
          price_trend := calculate_trend card trendDir trendPct
          investment_analysis := calculate_investment card
          related_cards := get_related_cards_ids card }
  match inner with
  | Except.ok e => Except.ok (e, r.cache)
  | Except.error e => Except.error { status := 500, detail := httpExceptionStr e }

/-- An upstream response for a card-list query: HTTP status plus, for a
200, the `data` member of the JSON body. -/
structure CardsResponse where
  status : ℕ
  data : List Card

/-- One entry of the trending lists. -/
structure TrendingEntry where
  id : String
  name : String
  image : String
  setName : String
  rarity : Option String
  market_price : ℚ
  price_change : ℚ
  price_change_percent : ℚ
  pull_rate : PullRate
  deriving DecidableEq

/-- A hot-cards entry (simulated change figures 15.5 and 12.3,
written as the equal fractions). -/
def mkHotEntry (c : Card) : TrendingEntry :=
  { id := c.id, name := c.name, image := c.image, setName := c.setName
    rarity := c.rarity, market_price := extract_market_price c
    price_change := 31 / 2, price_change_percent := 123 / 10
    pull_rate := calculate_pull_rate c }

/-- A cold-cards entry (simulated change figures -5.2 and -8.7,
written as the equal fractions). -/
def mkColdEntry (c : Card) : TrendingEntry :=
  { id := c.id, name := c.name, image := c.image, setName := c.setName
    rarity := c.rarity, market_price := extract_market_price c
    price_change := -(26 / 5), price_change_percent := -(87 / 10)
    pull_rate := calculate_pull_rate c }

/-- The `/api/trending` response body. -/
structure TrendingResult where
  success : Bool
  hot_cards : List TrendingEntry
  cold_cards : List TrendingEntry
  last_updated : ℕ
  deriving DecidableEq

/-- `get_trending_cards` from src/main.py: each sub-list is populated
only when its upstream query returned status 200, and the response is
`success: True` regardless. -/
def get_trending_cards (hot_response cold_response : CardsResponse) (now : ℕ) :
    TrendingResult :=
  let hot_cards :=
    if hot_response.status == 200 then hot_response.data.map mkHotEntry else []
  let cold_cards :=
    if cold_response.status == 200 then cold_response.data.map mkColdEntry else []
  { success := true, hot_cards := hot_cards, cold_cards := cold_cards, last_updated := now }

/-! ## Concrete inputs used by counterexamples and witnesses -/

/-- A `normal` variant whose `market` key is present but null and whose
`mid` is 5. -/
def nullMarketEntry : PriceEntry := { market := some none, mid := some (some 5) }

/-- A card whose only price variant is `normal` with a null `market`
and `mid = 5`. -/
def nullMarketCard : Card := { tcgplayer := some [("normal", nullMarketEntry)] }

/-- A card whose only price variant is `reverseHolofoil` with `mid = 3`
and no `market` key anywhere. -/
def midOnlyCard : Card :=
  { tcgplayer := some [("reverseHolofoil", { mid := some (some 3) })] }

/-- The prices dict of `midOnlyCard`. -/
def midOnlyPrices : List (String × PriceEntry) :=
  [("reverseHolofoil", { mid := some (some 3) })]

/-- A `normal` variant with a numeric `market` of 12. -/
def normalMarketEntry : PriceEntry := { market := some (some 12) }

/-- A card with `tcgplayer.prices.normal.market = 12`. -/
def normalMarketCard : Card := { tcgplayer := some [("normal", normalMarketEntry)] }

/-- A card with no rarity (treated as Common, 1 pack, opening cost
4.50) whose market price is exactly 4.50. -/
def boundaryCard : Card :=
  { tcgplayer := some [("normal", { market := some (some (9 / 2)) })] }

/-- A card whose rarity is `Rare Secret`. -/
def secretCard : Card := { rarity := some "Rare Secret" }

/-- A card whose rarity string is not a key of the pull-rate table. -/
def mysteryCard : Card := { rarity := some "Mystery Rare" }

/-- A card with every required field populated, used in trending
witnesses. -/
def sampleCard : Card :=
  { id := "base1-4", name := "Charizard", image := "img", setName := "Base"
    rarity := some "Rare" }

/-- An upstream single-card response with status 503. -/
def failedCardResponse : CardResponse := { status := 503, data := sampleCard }

/-! ## Helper lemmas -/

/-- Every row of the pull-rate table, and the default, needs at least
one pack per copy. -/
lemma pull_rates_packs_ge_one : ∀ e ∈ pull_rates, 1 ≤ e.2.2 := by decide

/-- `calculate_pull_rate` never reports fewer than one pack per copy. -/
lemma one_le_one_in_packs (c : Card) : 1 ≤ (calculate_pull_rate c).one_in_packs := by
  unfold calculate_pull_rate
  cases hf : pull_rates.find? (fun p => p.1 == c.rarity.getD "Common") with
  | none => simp [hf]
  | some p =>
    have hmem : p ∈ pull_rates := List.mem_of_find?_eq_some hf
    simp [hf]
    exact pull_rates_packs_ge_one p hmem

/-- `round2` is the identity on natural multiples of the pack price. -/
lemma round2_nat_mul_pack_cost (k : ℕ) : round2 ((k : ℚ) * pack_cost) = (k : ℚ) * pack_cost := by
  unfold round2 pack_cost
  have h : ((k : ℚ) * (9 / 2)) * 100 + 1 / 2 = ((450 * k : ℤ) : ℚ) + 1 / 2 := by
    push_cast
    ring
  rw [h, Int.floor_int_add]
  have hhalf : ⌊(1 / 2 : ℚ)⌋ = 0 := by norm_num
  rw [hhalf]
  push_cast
  ring

/-! ## Claim theorems -/

/-- C4: for every card record whose `tcgplayer.prices.normal.market`
field holds a numeric value, `extract_market_price` returns exactly
that value. -/
theorem c4_normal_market_is_returned (c : Card) (ps : List (String × PriceEntry))
    (e : PriceEntry) (v : ℚ)
    (h1 : c.tcgplayer = some ps)
    (h2 : lookupVariant ps "normal" = some e)
    (h3 : e.market = some (some v)) :
    extract_market_price c = v := by
  have hv : variantMarket ps "normal" = some (some v) := by
    simp [variantMarket, h2, h3]
  simp [extract_market_price, h1, marketOrder, scanMarket, hv, orZero]

/-- C4 witness: a concrete card with `normal.market = 12` evaluates
to 12. -/
theorem c4_normal_market_is_returned_witness :
    extract_market_price normalMarketCard = 12 :=
  c4_normal_market_is_returned normalMarketCard [("normal", normalMarketEntry)]
    normalMarketEntry 12 rfl rfl rfl

/-- C8: a card with no rarity field at all is treated as `Common` by
`calculate_pull_rate`: percentage 65.0, one pack, not the
unknown-rarity default. -/
theorem c8_missing_rarity_defaults_to_common (c : Card) (h : c.rarity = none) :
    calculate_pull_rate c = { percentage := 65, one_in_packs := 1, rarity := "Common" } := by
  simp [calculate_pull_rate, h, pull_rates]

/-- C8 witness: the empty card record has no rarity and gets the
Common pull rate. -/
theorem c8_missing_rarity_defaults_to_common_witness :
    calculate_pull_rate {} = { percentage := 65, one_in_packs := 1, rarity := "Common" } :=
  c8_missing_rarity_defaults_to_common {} rfl

/-- C6: a card of rarity `Rare Secret` gets percentage 0.25 and
one-in-40 packs, and a card whose rarity string is not a key of the
pull-rate table gets the default percentage 5.0 and one-in-2 packs. -/
theorem c6_pull_rate_secret_and_default (c : Card) :
    (c.rarity = some "Rare Secret" →
      calculate_pull_rate c =
        { percentage := 25 / 100, one_in_packs := 40, rarity := "Rare Secret" }) ∧
    (∀ r, c.rarity = some r → (∀ e ∈ pull_rates, e.1 ≠ r) →
      calculate_pull_rate c = { percentage := 5, one_in_packs := 2, rarity := r }) := by
  constructor
  · intro h
    simp [calculate_pull_rate, h, pull_rates]
  · intro r h hr
    have hfind : pull_rates.find? (fun p => p.1 == r) = none := by
      rw [List.find?_eq_none]
      intro x hx
      simpa using hr x hx
    simp [calculate_pull_rate, h, hfind]

/-- C6 witness: concrete evaluations at rarity `Rare Secret` and at a
string outside the table. -/
theorem c6_pull_rate_secret_and_default_witness :
    calculate_pull_rate secretCard =
      { percentage := 25 / 100, one_in_packs := 40, rarity := "Rare Secret" } ∧
    calculate_pull_rate mysteryCard =
      { percentage := 5, one_in_packs := 2, rarity := "Mystery Rare" } :=
  ⟨(c6_pull_rate_secret_and_default secretCard).1 rfl,
   (c6_pull_rate_secret_and_default mysteryCard).2 "Mystery Rare" rfl (by decide)⟩

/-- C5: `calculate_investment` recommends `BUY_SINGLE` exactly when the
market price is strictly below `one_in_packs * 4.50`, and at equality
it recommends `OPEN_PACKS`. -/
theorem c5_recommendation_iff (c : Card) :
    ((calculate_investment c).recommendation = "BUY_SINGLE" ↔
      extract_market_price c < ((calculate_pull_rate c).one_in_packs : ℚ) * (9 / 2)) ∧
    (extract_market_price c = ((calculate_pull_rate c).one_in_packs : ℚ) * (9 / 2) →
      (calculate_investment c).recommendation = "OPEN_PACKS") := by
  have hrec : (calculate_investment c).recommendation =
      if extract_market_price c < ((calculate_pull_rate c).one_in_packs : ℚ) * (9 / 2)
      then "BUY_SINGLE" else "OPEN_PACKS" := rfl
  constructor
  · rw [hrec]
    split_ifs with h
    · exact ⟨fun _ => h, fun _ => rfl⟩
    · constructor
      · intro hb
        exact absurd hb (by decide)
      · intro hlt
        exact absurd hlt h
  · intro heq
    rw [hrec, if_neg]
    rw [heq]
    exact lt_irrefl _

/-- C5 witness: a rarity-less card (Common, 1 pack, opening cost 4.50)
whose market price is exactly 4.50 is recommended `OPEN_PACKS`. -/
theorem c5_recommendation_iff_witness :
    (calculate_investment boundaryCard).recommendation = "OPEN_PACKS" :=
  (c5_recommendation_iff boundaryCard).2 (by
    have h1 : extract_market_price boundaryCard = 9 / 2 := rfl
    have h2 : (calculate_pull_rate boundaryCard).one_in_packs = 1 := rfl
    rw [h1, h2]
    norm_num)

/-- C10: the opening cost reported by `calculate_investment` is always
at least 4.50, so the division-by-zero guard is unreachable and
`roi_percentage` always equals the rounded ROI formula. -/
theorem c10_opening_cost_ge_pack_and_roi_formula (c : Card) :
    (9 / 2 : ℚ) ≤ (calculate_investment c).average_opening_cost ∧
    (calculate_investment c).roi_percentage =
      round2 ((extract_market_price c - ((calculate_pull_rate c).one_in_packs : ℚ) * (9 / 2)) /
        (((calculate_pull_rate c).one_in_packs : ℚ) * (9 / 2)) * 100) := by
  have hk : (1 : ℚ) ≤ ((calculate_pull_rate c).one_in_packs : ℚ) := by
    exact_mod_cast one_le_one_in_packs c
  have hoc : (9 / 2 : ℚ) ≤ ((calculate_pull_rate c).one_in_packs : ℚ) * (9 / 2) := by
    nlinarith
  have hpos : (0 : ℚ) < ((calculate_pull_rate c).one_in_packs : ℚ) * (9 / 2) := by
    nlinarith
  constructor
  · have havg : (calculate_investment c).average_opening_cost =
        round2 (((calculate_pull_rate c).one_in_packs : ℚ) * pack_cost) := rfl
    rw [havg, round2_nat_mul_pack_cost]
    simpa [pack_cost] using hoc
  · have hroi : (calculate_investment c).roi_percentage =
        if 0 < ((calculate_pull_rate c).one_in_packs : ℚ) * (9 / 2) then
          round2 ((extract_market_price c - ((calculate_pull_rate c).one_in_packs : ℚ) * (9 / 2)) /
            (((calculate_pull_rate c).one_in_packs : ℚ) * (9 / 2)) * 100)
        else 0 := rfl
    rw [hroi, if_pos hpos]

/-- C3 counterexample: `nullMarketCard` has no non-null `market` in any
scanned variant (only a null one under `normal`) but has `mid = 5`
under `normal`, so the claim requires the result 5; the code stops at
the `normal` variant because the `market` key is present, and
`None or 0` yields 0, never reaching the `mid` fallback. -/
theorem c3_null_market_blocks_mid_fallback :
    extract_market_price nullMarketCard = 0 ∧ extract_market_price nullMarketCard ≠ 5 := by
  constructor
  · rfl
  · intro h
    have h0 : (0 : ℚ) = 5 := by
      calc (0 : ℚ) = extract_market_price nullMarketCard := rfl
        _ = 5 := h
    exact absurd h0 (by norm_num)

/-- C3 amended: `extract_market_price` scans `normal`, `holofoil`,
`unlimited`, `1stEdition` and returns at the first variant that has a
`market` key, yielding its value, or 0 when that value is null (a
null `market` does not fall through); only when no scanned variant
has a `market` key does it return the first available `mid` value (or
0 when that `mid` is null); with no price data at all it returns 0. -/
theorem c3_market_scan_policy (c : Card) (ps : List (String × PriceEntry))
    (h : c.tcgplayer = some ps) :
    (∀ m, variantMarket ps "normal" = some m → extract_market_price c = orZero m) ∧
    (variantMarket ps "normal" = none →
      ∀ m, variantMarket ps "holofoil" = some m → extract_market_price c = orZero m) ∧
    (variantMarket ps "normal" = none → variantMarket ps "holofoil" = none →
      ∀ m, variantMarket ps "unlimited" = some m → extract_market_price c = orZero m) ∧
    (variantMarket ps "normal" = none → variantMarket ps "holofoil" = none →
      variantMarket ps "unlimited" = none →
      ∀ m, variantMarket ps "1stEdition" = some m → extract_market_price c = orZero m) ∧
    ((∀ v ∈ marketOrder, variantMarket ps v = none) →
      ∀ m, firstMid ps = some m → extract_market_price c = orZero m) ∧
    ((∀ v ∈ marketOrder, variantMarket ps v = none) → firstMid ps = none →
      extract_market_price c = 0) := by
  refine ⟨?_, ?_, ?_, ?_, ?_, ?_⟩
  · intro m hm
    simp [extract_market_price, h, marketOrder, scanMarket, hm]
  · intro h1 m hm
    simp [extract_market_price, h, marketOrder, scanMarket, h1, hm]
  · intro h1 h2 m hm
    simp [extract_market_price, h, marketOrder, scanMarket, h1, h2, hm]
  · intro h1 h2 h3 m hm
    simp [extract_market_price, h, marketOrder, scanMarket, h1, h2, h3, hm]
  · intro hall m hm
    have h1 := hall "normal" (by simp [marketOrder])
    have h2 := hall "holofoil" (by simp [marketOrder])
    have h3 := hall "unlimited" (by simp [marketOrder])
    have h4 := hall "1stEdition" (by simp [marketOrder])
    simp [extract_market_price, h, marketOrder, scanMarket, h1, h2, h3, h4, hm]
  · intro hall hmid
    have h1 := hall "normal" (by simp [marketOrder])
    have h2 := hall "holofoil" (by simp [marketOrder])
    have h3 := hall "unlimited" (by simp [marketOrder])
    have h4 := hall "1stEdition" (by simp [marketOrder])
    simp [extract_market_price, h, marketOrder, scanMarket, h1, h2, h3, h4, hmid]

/-- C3 witness: a card whose only variant is `reverseHolofoil` with
`mid = 3` and no `market` key takes the `mid` fallback and yields 3. -/
theorem c3_market_scan_policy_witness :
    extract_market_price midOnlyCard = 3 :=
  (c3_market_scan_policy midOnlyCard midOnlyPrices rfl).2.2.2.2.1
    (by decide) (some 3) rfl

/-- C1: a second call one full day (86400 s) after the first stores a
value at time 0 finds `(now - timestamp).seconds = 86400 % 86400 = 0`
below `CACHE_DURATION`, so although far more than the 3600-second
time-to-live has elapsed, the producer is not invoked again and the
stale value is returned — refuting the after-expiry half of the
claim. -/
theorem c1_producer_not_invoked_after_ttl :
    CACHE_DURATION < 86400 ∧
    (get_cached_or_fetch ([] : CacheMap ℕ) "card_x" (fun _ => 1) 0).cache =
      [("card_x", 1, 0)] ∧
    (get_cached_or_fetch [("card_x", (1 : ℕ), 0)] "card_x" (fun _ => 2) 86400).invoked =
      false ∧
    (get_cached_or_fetch [("card_x", (1 : ℕ), 0)] "card_x" (fun _ => 2) 86400).value = 1 := by
  refine ⟨by decide, rfl, rfl, rfl⟩

/-- C2: on an upstream non-200 (status 503) for a card query, the
handler stores `None`, raises a 404 `HTTPException` inside its own
`try`, and the broad `except Exception` re-raises it as a 500 whose
detail is the stringified 404 — so the client receives HTTP 500, not
the distinct 404 the claim requires. -/
theorem c2_card_detail_error_is_500_not_404 :
    get_card_detail [] "xy7-54" failedCardResponse 0 "stable" 0 =
      Except.error { status := 500, detail := "404: Card not found" } ∧
    (500 : ℕ) ≠ 404 := by
  refine ⟨rfl, by decide⟩

/-- C9: when the producer returns `None` (as `fetch_card` does on an
upstream non-200), `get_cached_or_fetch` stores `None` under the key,
and any later call within the time-to-live returns `None` without
invoking its producer and leaves the cache unchanged. -/
theorem c9_cache_stores_and_serves_none (resp : CardResponse) (key : String)
    (t0 t1 : ℕ) (producer2 : Unit → Option Card)
    (h200 : resp.status ≠ 200) (_hle : t0 ≤ t1) (httl : t1 - t0 < CACHE_DURATION) :
    (get_cached_or_fetch ([] : CacheMap (Option Card)) key (fun _ => fetch_card resp) t0).value =
      none ∧
    (get_cached_or_fetch ([] : CacheMap (Option Card)) key (fun _ => fetch_card resp) t0).cache =
      [(key, none, t0)] ∧
    (get_cached_or_fetch [(key, ((none : Option Card), t0))] key producer2 t1).value = none ∧
    (get_cached_or_fetch [(key, ((none : Option Card), t0))] key producer2 t1).invoked =
      false ∧
    (get_cached_or_fetch [(key, ((none : Option Card), t0))] key producer2 t1).cache =
      [(key, none, t0)] := by
  have hf : fetch_card resp = none := by
    have hb : (resp.status == 200) = false := beq_eq_false_iff_ne.mpr h200
    simp [fetch_card, hb]
  have hfresh : timedelta_seconds t0 t1 < CACHE_DURATION := by
    have hlt : t1 - t0 < 86400 := lt_trans httl (by norm_num [CACHE_DURATION])
    simpa [timedelta_seconds, Nat.mod_eq_of_lt hlt] using httl
  have hl2 : cacheLookup [(key, ((none : Option Card), t0))] key = some (none, t0) := by
    simp [cacheLookup]
  refine ⟨?_, ?_, ?_, ?_, ?_⟩
  · simp [get_cached_or_fetch, cacheLookup, hf]
  · simp [get_cached_or_fetch, cacheLookup, cacheInsert, hf]
  · simp [get_cached_or_fetch, hl2, hfresh]
  · simp [get_cached_or_fetch, hl2, hfresh]
  · simp [get_cached_or_fetch, hl2, hfresh]

/-- C9 witness: concrete instantiation with an upstream 503, store at
time 0 and re-read at time 100. -/
theorem c9_cache_stores_and_serves_none_witness :
    (get_cached_or_fetch ([] : CacheMap (Option Card)) "card_abc"
      (fun _ => fetch_card failedCardResponse) 0).value = none ∧
    (get_cached_or_fetch ([] : CacheMap (Option Card)) "card_abc"
      (fun _ => fetch_card failedCardResponse) 0).cache = [("card_abc", none, 0)] ∧
    (get_cached_or_fetch [("card_abc", ((none : Option Card), 0))] "card_abc"
      (fun _ => some sampleCard) 100).value = none ∧
    (get_cached_or_fetch [("card_abc", ((none : Option Card), 0))] "card_abc"
      (fun _ => some sampleCard) 100).invoked = false ∧
    (get_cached_or_fetch [("card_abc", ((none : Option Card), 0))] "card_abc"
      (fun _ => some sampleCard) 100).cache = [("card_abc", none, 0)] :=
  c9_cache_stores_and_serves_none failedCardResponse "card_abc" 0 100
    (fun _ => some sampleCard) (by decide) (by decide) (by decide)

/-- C7: in `/api/trending`, when one upstream sub-query returns non-200
while the other returns 200, the response is still a success and the
failed sub-list is empty. -/
theorem c7_trending_one_sided_failure (hr cr : CardsResponse) (now : ℕ) :
    (hr.status ≠ 200 → cr.status = 200 →
      (get_trending_cards hr cr now).success = true ∧
      (get_trending_cards hr cr now).hot_cards = []) ∧
    (cr.status ≠ 200 → hr.status = 200 →
      (get_trending_cards hr cr now).success = true ∧
      (get_trending_cards hr cr now).cold_cards = []) := by
  constructor
  · intro h1 _
    have hb : (hr.status == 200) = false := beq_eq_false_iff_ne.mpr h1
    simp [get_trending_cards, hb]
  · intro h1 _
    have hb : (cr.status == 200) = false := beq_eq_false_iff_ne.mpr h1
    simp [get_trending_cards, hb]

/-- C7 witness: hot query fails with 500, cold succeeds with one card;
the response succeeds with an empty hot list. -/
theorem c7_trending_one_sided_failure_witness :
    (get_trending_cards { status := 500, data := [sampleCard] }
      { status := 200, data := [sampleCard] } 0).success = true ∧
    (get_trending_cards { status := 500, data := [sampleCard] }
      { status := 200, data := [sampleCard] } 0).hot_cards = [] :=
  (c7_trending_one_sided_failure { status := 500, data := [sampleCard] }
    { status := 200, data := [sampleCard] } 0).1 (by decide) rfl
